import Mathlib

/-!
Verification of the runtime core of the CubejsServerCore coordinator:
background-context normalization, the per-data-source driver acquisition
broker, the compiler-artifact LRU cache, the per-tenant orchestrator
registry, and the scheduled refresh timer.

Each definition is a shallow embedding of the corresponding TypeScript
source. Components whose source lives outside the provided files
(the lru-cache package, createCancelableInterval, OrchestratorStorage)
are modelled from the specification and marked as such in their doc
comments.
-/

/- ======================================================================
   Background context normalization (migrateBackgroundContext)
   ====================================================================== -/

/-- A background execution context object. The two identity fields
authInfo (legacy) and securityContext (current) are modelled as options
over an arbitrary value type; rest stands for all remaining fields of the
object, which spread syntax preserves unchanged. -/
structure UserBackgroundContext (α ρ : Type) where
  authInfo : Option α
  securityContext : Option α
  rest : ρ
deriving DecidableEq

/-- The event name of the one-time deprecation diagnostic. -/
def authInfoDeprecationEvent : String := "auth_info_deprecation"

/-- The warning message logged with the deprecation diagnostic. -/
def authInfoDeprecationWarning : String :=
  "authInfo was renamed to securityContext, please migrate: " ++
    "https://github.com/cube-js/cube.js/blob/master/DEPRECATION.md#checkauthmiddleware"

/-- Initial value of the warningBackgroundContextShow instance field. -/
def warningBackgroundContextShowInit : Bool := false

/-- Shallow embedding of migrateBackgroundContext. Input: the current
value of the warningBackgroundContextShow flag and the (nullable)
context. Output: the (nullable) result context, the new flag value, and
the list of (event, warning) pairs emitted through the logger during the
call. Truthiness of the JS fields is modelled by Option.isSome. -/
def migrateBackgroundContext {α ρ : Type} (warningShow : Bool)
    (ctx : Option (UserBackgroundContext α ρ)) :
    Option (UserBackgroundContext α ρ) × Bool × List (String × String) :=
  match ctx with
  | none => (none, warningShow, [])
  | some c =>
    if c.securityContext.isSome && !c.authInfo.isSome then
      (some { c with authInfo := c.securityContext }, warningShow, [])
    else if c.authInfo.isSome then
      if warningShow then
        (some { c with securityContext := c.authInfo }, false,
          [(authInfoDeprecationEvent, authInfoDeprecationWarning)])
      else
        (some { c with securityContext := c.authInfo }, warningShow, [])
    else
      (none, warningShow, [])

/-- Runs a sequence of migrateBackgroundContext calls, threading the
warningBackgroundContextShow flag and collecting all emitted log events
in order. -/
def runMigrations {α ρ : Type} (warningShow : Bool) :
    List (Option (UserBackgroundContext α ρ)) → Bool × List (String × String)
  | [] => (warningShow, [])
  | c :: cs =>
    let r := migrateBackgroundContext warningShow c
    let tail := runMigrations r.2.1 cs
    (tail.1, r.2.2 ++ tail.2)

lemma migrateBackgroundContext_false_flag {α ρ : Type}
    (ctx : Option (UserBackgroundContext α ρ)) :
    (migrateBackgroundContext false ctx).2.1 = false ∧
      (migrateBackgroundContext false ctx).2.2 = [] := by
  cases ctx with
  | none => exact ⟨rfl, rfl⟩
  | some c =>
    simp only [migrateBackgroundContext]
    split
    · exact ⟨rfl, rfl⟩
    · split
      · exact ⟨rfl, rfl⟩
      · exact ⟨rfl, rfl⟩

/-- C4 counterexample: a non-null context with neither identity field set
is not passed through unchanged; migrateBackgroundContext maps it to
null. -/
theorem C4_neither_field_not_passthrough :
    (migrateBackgroundContext false
        (some ({ authInfo := none, securityContext := none, rest := 0 } :
          UserBackgroundContext Nat Nat))).1 ≠
      some ({ authInfo := none, securityContext := none, rest := 0 } :
        UserBackgroundContext Nat Nat) := by
  decide

/-- C4 (amended): migrateBackgroundContext maps null to null; maps a
non-null context with neither identity field to null (not to the context
itself); maps a context with only the current/security field to one where
the legacy field is synthesized with the same value; and maps every
context whose legacy field is set, including the case where both fields
are set, to one where the current field is overwritten with the legacy
value. -/
theorem C4_migrateBackgroundContext_cases {α ρ : Type} (w : Bool)
    (c : UserBackgroundContext α ρ) :
    (migrateBackgroundContext w (none : Option (UserBackgroundContext α ρ))
        = (none, w, []))
    ∧ (c.authInfo = none → c.securityContext = none →
        (migrateBackgroundContext w (some c)).1 = none)
    ∧ (∀ sc, c.authInfo = none → c.securityContext = some sc →
        (migrateBackgroundContext w (some c)).1
          = some { c with authInfo := some sc })
    ∧ (∀ ai, c.authInfo = some ai →
        (migrateBackgroundContext w (some c)).1
          = some { c with securityContext := some ai }) := by
  refine ⟨rfl, ?_, ?_, ?_⟩
  · intro h1 h2
    simp [migrateBackgroundContext, h1, h2]
  · intro sc h1 h2
    simp [migrateBackgroundContext, h1, h2]
  · intro ai h1
    have h2 : c.authInfo.isSome = true := by simp [h1]
    by_cases h3 : c.securityContext.isSome && !c.authInfo.isSome
    · simp [h2] at h3
    · cases w <;> simp [migrateBackgroundContext, h1, h2, h3]

/-- C4 witness: the amended characterization evaluated at concrete
contexts with neither field set and with both fields set. -/
theorem C4_witness :
    ((migrateBackgroundContext true
        (some ({ authInfo := none, securityContext := none, rest := 7 } :
          UserBackgroundContext Nat Nat))).1 = none)
    ∧ ((migrateBackgroundContext true
        (some ({ authInfo := some 1, securityContext := some 2, rest := 7 } :
          UserBackgroundContext Nat Nat))).1
        = some { authInfo := some 1, securityContext := some 1, rest := 7 }) :=
  ⟨(C4_migrateBackgroundContext_cases true
      { authInfo := none, securityContext := none, rest := 7 }).2.1 rfl rfl,
   (C4_migrateBackgroundContext_cases true
      { authInfo := some 1, securityContext := some 2, rest := 7 }).2.2.2 1 rfl⟩

/-- C5: the deprecation diagnostic is dead code. The flag
warningBackgroundContextShow is initialized to false, the logger call is
guarded by the flag being true, and the flag is only ever set to false;
hence over every sequence of migrateBackgroundContext calls starting from
process start, no call at all emits the auth_info_deprecation event,
contradicting the claim that the first legacy-shaped context emits it
exactly once. In particular a single call on a legacy-only context emits
nothing. -/
theorem C5_deprecation_never_logged {α ρ : Type}
    (ctxs : List (Option (UserBackgroundContext α ρ))) :
    (runMigrations warningBackgroundContextShowInit ctxs).2 = [] := by
  induction ctxs with
  | nil => rfl
  | cons c cs ih =>
    have h := migrateBackgroundContext_false_flag c
    simp only [runMigrations, warningBackgroundContextShowInit] at ih ⊢
    rw [h.2, h.1]
    simpa using ih

/-- C5 witness: a first call carrying only the legacy authInfo field
emits no log event at all. -/
theorem C5_witness :
    (runMigrations warningBackgroundContextShowInit
        [some ({ authInfo := some 1, securityContext := none, rest := 0 } :
          UserBackgroundContext Nat Nat)]).2 = [] :=
  C5_deprecation_never_logged
    [some { authInfo := some 1, securityContext := none, rest := 0 }]

/- ======================================================================
   Driver acquisition broker (getDriver / getExternalDriverFactory)
   ====================================================================== -/

/-- Behavior of the external collaborators during one acquisition
attempt: the driver factory result for this context and data source, the
optional setLogger capability probe, and the testConnection and release
calls of the constructed handle. The handle type is delta, the error type
epsilon. -/
structure DriverEnv (δ ε : Type) where
  factory : Except ε δ
  hasSetLogger : δ → Bool
  testConnection : δ → Except ε Unit
  release : δ → Except ε Unit

/-- Observable actions of one acquisition attempt, listed in execution
order: slotReset is the assignment of null into the promise slot, reject
and fulfill are the settlement of the shared promise. -/
inductive AcquireAction (δ ε : Type) where
  | factoryCall
  | setLoggerCall (d : δ)
  | testConnectionCall (d : δ)
  | slotReset
  | releaseCall (d : δ)
  | reject (e : ε)
  | fulfill (d : δ)

/-- Shallow embedding of the async closure that getDriver stores into
driverPromise[dataSource]: invoke the driver factory; on success attach
the logger when the handle has setLogger, then call testConnection and
fulfill with the handle. In the catch block the slot is reset to null
first; then, if a handle was constructed, its release is awaited with no
guard, so a rejection of release propagates out of the catch and settles
the shared promise in place of the original error. Returns the settled
outcome and the ordered action trace. -/
def driverAcquisitionAttempt {δ ε : Type} (env : DriverEnv δ ε) :
    Except ε δ × List (AcquireAction δ ε) :=
  match env.factory with
  | .error e => (.error e, [.factoryCall, .slotReset, .reject e])
  | .ok d =>
    let pre := .factoryCall ::
      (if env.hasSetLogger d then [.setLoggerCall d] else []) ++
        [.testConnectionCall d]
    match env.testConnection d with
    | .ok _ => (.ok d, pre ++ [.fulfill d])
    | .error e =>
      match env.release d with
      | .ok _ => (.error e, pre ++ [.slotReset, .releaseCall d, .reject e])
      | .error e2 => (.error e2, pre ++ [.slotReset, .releaseCall d, .reject e2])

/-- Shallow embedding of the async closure that getExternalDriverFactory
stores into externalPreAggregationsDriverPromise; its body is the same
algorithm as the per-data-source one, over the single external slot. -/
def externalDriverAcquisitionAttempt {δ ε : Type} (env : DriverEnv δ ε) :
    Except ε δ × List (AcquireAction δ ε) :=
  match env.factory with
  | .error e => (.error e, [.factoryCall, .slotReset, .reject e])
  | .ok d =>
    let pre := .factoryCall ::
      (if env.hasSetLogger d then [.setLoggerCall d] else []) ++
        [.testConnectionCall d]
    match env.testConnection d with
    | .ok _ => (.ok d, pre ++ [.fulfill d])
    | .error e =>
      match env.release d with
      | .ok _ => (.error e, pre ++ [.slotReset, .releaseCall d, .reject e])
      | .error e2 => (.error e2, pre ++ [.slotReset, .releaseCall d, .reject e2])

lemma externalDriverAcquisitionAttempt_eq {δ ε : Type} (env : DriverEnv δ ε) :
    externalDriverAcquisitionAttempt env = driverAcquisitionAttempt env := rfl

/-- Number of driver-factory invocations recorded in a trace. -/
def countFactoryCalls {δ ε : Type} (tr : List (AcquireAction δ ε)) : Nat :=
  (tr.filter fun a => match a with | .factoryCall => true | _ => false).length

/-- Number of testConnection invocations recorded in a trace. -/
def countTestConnectionCalls {δ ε : Type} (tr : List (AcquireAction δ ε)) : Nat :=
  (tr.filter fun a => match a with | .testConnectionCall _ => true | _ => false).length

/-- State of one acquisition slot of the broker closures created in
getOrchestratorApi: promise is the stored shared promise, identified by
an id; ids are allocated in increasing order so distinct attempts get
distinct promises; factoryInvocations counts how often the driver factory
has been invoked for this slot. The same machine models both
driverPromise[dataSource] and externalPreAggregationsDriverPromise. -/
structure SlotState where
  promise : Option Nat
  factoryInvocations : Nat
  nextId : Nat
deriving DecidableEq

/-- Synchronous prefix of one getDriver call, which runs without an
interleaving point in the event loop: if the slot already holds a
promise, return it unchanged; otherwise invoke the factory once, store a
fresh promise in the slot and return it. -/
def acquireStep (s : SlotState) : SlotState × Nat :=
  match s.promise with
  | some _ => (s, (s.promise).getD 0)
  | none =>
    ({ promise := some s.nextId,
       factoryInvocations := s.factoryInvocations + 1,
       nextId := s.nextId + 1 }, s.nextId)

/-- Settlement of the pending attempt: on failure the catch block has set
the slot back to null; on success the resolved promise stays stored. -/
def settleStep (s : SlotState) (failed : Bool) : SlotState :=
  if failed then { s with promise := none } else s

/-- N consecutive getDriver calls with no settlement in between,
returning the final state and the promise handed to each caller. -/
def acquireMany (s : SlotState) : Nat → SlotState × List Nat
  | 0 => (s, [])
  | n + 1 =>
    let r := acquireStep s
    let rest := acquireMany r.1 n
    (rest.1, r.2 :: rest.2)

lemma acquireStep_resolved {s : SlotState} {p : Nat} (hp : s.promise = some p) :
    acquireStep s = (s, p) := by
  simp [acquireStep, hp]

lemma acquireMany_resolved {s : SlotState} {p : Nat} (hp : s.promise = some p) :
    ∀ n, acquireMany s n = (s, List.replicate n p) := by
  intro n
  induction n with
  | zero => rfl
  | succ m ih =>
    simp [acquireMany, acquireStep_resolved hp, ih, List.replicate_succ]

/-- Tests whether an action is the slot reset. -/
def isSlotReset {δ ε : Type} : AcquireAction δ ε → Bool
  | .slotReset => true
  | _ => false

/-- Tests whether an action is the rejection of the shared promise. -/
def isReject {δ ε : Type} : AcquireAction δ ε → Bool
  | .reject _ => true
  | _ => false

/-- Index of the first action satisfying p, if any. -/
def firstIdx {α : Type} (p : α → Bool) : List α → Option Nat
  | [] => none
  | a :: l => if p a then some 0 else (firstIdx p l).map (· + 1)

/-- Holds when the trace resets the slot strictly before rejecting the
shared promise. -/
def resetBeforeReject {δ ε : Type} (tr : List (AcquireAction δ ε)) : Bool :=
  match firstIdx isSlotReset tr, firstIdx isReject tr with
  | some i, some j => decide (i < j)
  | _, _ => false

/-- C1: driver acquisition coalesces. Once driverPromise[dataSource]
holds a promise, a getDriver call returns exactly that promise and leaves
the state unchanged, invoking no factory; N consecutive calls starting
from an empty slot all receive one and the same promise while the factory
is invoked exactly once; and within the single attempt the factory is
called exactly once and testConnection exactly once when the factory
succeeds (and not at all when the factory throws, where the attempt ends
early). -/
theorem C1_acquisition_coalescing {δ ε : Type} (s : SlotState) (p n : Nat)
    (env : DriverEnv δ ε) (hp : s.promise = some p) (hn : 0 < n) :
    acquireStep s = (s, p)
    ∧ (∀ s0 : SlotState, s0.promise = none →
        (acquireMany s0 n).1.factoryInvocations = s0.factoryInvocations + 1
          ∧ (acquireMany s0 n).2 = List.replicate n s0.nextId)
    ∧ countFactoryCalls (driverAcquisitionAttempt env).2 = 1
    ∧ countTestConnectionCalls (driverAcquisitionAttempt env).2
        = (if env.factory.isOk then 1 else 0) := by
  refine ⟨acquireStep_resolved hp, ?_, ?_, ?_⟩
  · intro s0 h0
    obtain ⟨m, rfl⟩ : ∃ m, n = m + 1 := ⟨n - 1, (Nat.succ_pred_eq_of_pos hn).symm⟩
    have hstep : acquireStep s0 =
        ({ promise := some s0.nextId,
           factoryInvocations := s0.factoryInvocations + 1,
           nextId := s0.nextId + 1 }, s0.nextId) := by
      simp [acquireStep, h0]
    have hrest := acquireMany_resolved
      (s := { promise := some s0.nextId,
              factoryInvocations := s0.factoryInvocations + 1,
              nextId := s0.nextId + 1 }) (p := s0.nextId) rfl m
    constructor
    · simp [acquireMany, hstep, hrest]
    · simp [acquireMany, hstep, hrest, List.replicate_succ]
  · rcases hf : env.factory with e | d
    · simp [driverAcquisitionAttempt, hf, countFactoryCalls]
    · rcases ht : env.testConnection d with e | u
      · rcases hr : env.release d with e2 | u2 <;> cases hl : env.hasSetLogger d <;>
          simp [driverAcquisitionAttempt, hf, ht, hr, hl, countFactoryCalls]
      · cases hl : env.hasSetLogger d <;>
          simp [driverAcquisitionAttempt, hf, ht, hl, countFactoryCalls]
  · rcases hf : env.factory with e | d
    · simp [driverAcquisitionAttempt, hf, countTestConnectionCalls, Except.isOk, Except.toBool]
    · rcases ht : env.testConnection d with e | u
      · rcases hr : env.release d with e2 | u2 <;> cases hl : env.hasSetLogger d <;>
          simp [driverAcquisitionAttempt, hf, ht, hr, hl, countTestConnectionCalls, Except.toBool,
            Except.isOk]
      · cases hl : env.hasSetLogger d <;>
          simp [driverAcquisitionAttempt, hf, ht, hl, countTestConnectionCalls, Except.toBool,
            Except.isOk]

/-- A concrete attempt environment with a succeeding factory and
connection test. -/
def envAllOk : DriverEnv Nat Nat :=
  { factory := .ok 0
    hasSetLogger := fun _ => false
    testConnection := fun _ => .ok ()
    release := fun _ => .ok () }

/-- C1 witness: the coalescing facts at a slot already holding promise 5
and at three concurrent calls on an empty slot. -/
theorem C1_witness :
    acquireStep ⟨some 5, 1, 6⟩ = (⟨some 5, 1, 6⟩, 5)
    ∧ (∀ s0 : SlotState, s0.promise = none →
        (acquireMany s0 3).1.factoryInvocations = s0.factoryInvocations + 1
          ∧ (acquireMany s0 3).2 = List.replicate 3 s0.nextId)
    ∧ countFactoryCalls (driverAcquisitionAttempt envAllOk).2 = 1
    ∧ countTestConnectionCalls (driverAcquisitionAttempt envAllOk).2
        = (if envAllOk.factory.isOk then 1 else 0) :=
  C1_acquisition_coalescing ⟨some 5, 1, 6⟩ 5 3 envAllOk rfl (by decide)

/-- C2: slot reset on failure. For any failed acquisition attempt, of the
per-data-source closure as well as of the external one, the action trace
resets the slot strictly before the shared promise rejects; and on the
slot machine, after a failed settlement the slot is empty, so the next
getDriver call performs a fresh factory invocation and hands out a new
promise distinct from the failed one. -/
theorem C2_slot_reset_on_failure {δ ε : Type} (env env2 : DriverEnv δ ε)
    (e e2 : ε) (s : SlotState) (p : Nat)
    (h1 : (driverAcquisitionAttempt env).1 = .error e)
    (h2 : (externalDriverAcquisitionAttempt env2).1 = .error e2)
    (hp : s.promise = some p) (hlt : p < s.nextId) :
    resetBeforeReject (driverAcquisitionAttempt env).2 = true
    ∧ resetBeforeReject (externalDriverAcquisitionAttempt env2).2 = true
    ∧ (settleStep s true).promise = none
    ∧ acquireStep (settleStep s true)
        = ({ promise := some s.nextId,
             factoryInvocations := s.factoryInvocations + 1,
             nextId := s.nextId + 1 }, s.nextId)
    ∧ s.nextId ≠ p := by
  have key : ∀ env0 : DriverEnv δ ε, ∀ e0 : ε,
      (driverAcquisitionAttempt env0).1 = .error e0 →
      resetBeforeReject (driverAcquisitionAttempt env0).2 = true := by
    intro env0 e0 h0
    rcases hf : env0.factory with ea | d
    · simp [driverAcquisitionAttempt, hf, resetBeforeReject, firstIdx,
        isSlotReset, isReject]
    · rcases ht : env0.testConnection d with eb | u
      · rcases hr : env0.release d with ec | u2 <;> cases hl : env0.hasSetLogger d <;>
          simp [driverAcquisitionAttempt, hf, ht, hr, hl, resetBeforeReject,
            firstIdx, isSlotReset, isReject]
      · exfalso
        cases hl : env0.hasSetLogger d <;>
          simp [driverAcquisitionAttempt, hf, ht, hl] at h0
  refine ⟨key env e h1, ?_, ?_, ?_, ?_⟩
  · rw [externalDriverAcquisitionAttempt_eq] at h2 ⊢
    exact key env2 e2 h2
  · simp [settleStep]
  · simp [settleStep, acquireStep]
  · exact fun h => absurd (h ▸ hlt) (lt_irrefl _)

/-- A concrete attempt environment whose factory throws. -/
def envFactoryThrows : DriverEnv Nat Nat :=
  { factory := .error 42
    hasSetLogger := fun _ => false
    testConnection := fun _ => .ok ()
    release := fun _ => .ok () }

/-- A concrete attempt environment whose connection test fails while
release succeeds. -/
def envTestConnFails : DriverEnv Nat Nat :=
  { factory := .ok 0
    hasSetLogger := fun _ => true
    testConnection := fun _ => .error 9
    release := fun _ => .ok () }

/-- C2 witness: the reset facts at a throwing factory, a failing
connection test, and the slot holding promise 2 out of 5 allocated. -/
theorem C2_witness :
    resetBeforeReject (driverAcquisitionAttempt envFactoryThrows).2 = true
    ∧ resetBeforeReject (externalDriverAcquisitionAttempt envTestConnFails).2 = true
    ∧ (settleStep ⟨some 2, 3, 5⟩ true).promise = none
    ∧ acquireStep (settleStep ⟨some 2, 3, 5⟩ true)
        = ({ promise := some 5, factoryInvocations := 4, nextId := 6 }, 5)
    ∧ (5 : Nat) ≠ 2 :=
  C2_slot_reset_on_failure envFactoryThrows envTestConnFails 42 9
    ⟨some 2, 3, 5⟩ 2 rfl rfl rfl (by decide)

/-- A concrete attempt environment where the connection test fails with
error 9 and release itself fails with a different error 77. -/
def envReleaseFails : DriverEnv Nat Nat :=
  { factory := .ok 0
    hasSetLogger := fun _ => false
    testConnection := fun _ => .error 9
    release := fun _ => .error 77 }

/-- C3 counterexample: with a failing connection test (error 9) and a
failing release (error 77), the shared outcome is the release error, not
the original failure: the release failure is re-raised to the callers
rather than swallowed. -/
theorem C3_release_failure_not_swallowed :
    (driverAcquisitionAttempt envReleaseFails).1 = .error 77
    ∧ (driverAcquisitionAttempt envReleaseFails).1 ≠ .error 9 := by
  refine ⟨rfl, fun h => ?_⟩
  have : (77 : Nat) = 9 := Except.error.inj (rfl.trans h)
  exact absurd this (by decide)

/-- C3 (amended): when an acquisition attempt fails after a driver handle
was constructed (the factory succeeded and testConnection rejected), the
broker does call release on the partially constructed handle, but the
release failure is not swallowed: if release succeeds the callers observe
the original testConnection error, while if release rejects its error
replaces the original one and propagates to the callers. -/
theorem C3_release_behavior {δ ε : Type} (env : DriverEnv δ ε) (d : δ) (e : ε)
    (hfac : env.factory = .ok d) (htc : env.testConnection d = .error e) :
    AcquireAction.releaseCall d ∈ (driverAcquisitionAttempt env).2
    ∧ (∀ u, env.release d = .ok u → (driverAcquisitionAttempt env).1 = .error e)
    ∧ (∀ e2, env.release d = .error e2 →
        (driverAcquisitionAttempt env).1 = .error e2) := by
  refine ⟨?_, ?_, ?_⟩
  · rcases hr : env.release d with e2 | u <;> cases hl : env.hasSetLogger d <;>
      simp [driverAcquisitionAttempt, hfac, htc, hr, hl]
  · intro u hr
    cases hl : env.hasSetLogger d <;>
      simp [driverAcquisitionAttempt, hfac, htc, hr, hl]
  · intro e2 hr
    cases hl : env.hasSetLogger d <;>
      simp [driverAcquisitionAttempt, hfac, htc, hr, hl]

/-- C3 witness: the amended release behavior evaluated at the concrete
environment with failing connection test and succeeding release. -/
theorem C3_witness :
    AcquireAction.releaseCall 0 ∈ (driverAcquisitionAttempt envTestConnFails).2
    ∧ (∀ u, envTestConnFails.release 0 = .ok u →
        (driverAcquisitionAttempt envTestConnFails).1 = .error 9)
    ∧ (∀ e2, envTestConnFails.release 0 = .error e2 →
        (driverAcquisitionAttempt envTestConnFails).1 = .error e2) :=
  C3_release_behavior envTestConnFails 0 9 rfl rfl

/- ======================================================================
   Compiled-artifact cache (compilerCache, an LRU cache)
   ====================================================================== -/

/-- Modelled from the spec: the lru-cache package used for compilerCache
is an external dependency whose source is not under src. The model
follows the specified CompiledArtifactCache contract: bounded entry
count with least-recently-used eviction, recency updated on every get,
optional max-age treated as a miss on get even before a sweep, optional
refresh of entry age on access, and a prune operation removing expired
entries. Entries are kept most-recently-used first, each with the time
it was stored or last refreshed. -/
structure LRUCache (κ ν : Type) where
  max : Nat
  maxAge : Option Nat
  updateAgeOnGet : Bool
  entries : List (κ × ν × Nat)

/-- An entry stored or refreshed at time t is stale at time now when its
age exceeds the configured max-age. -/
def LRUCache.isStale {κ ν : Type} (c : LRUCache κ ν) (now t : Nat) : Bool :=
  match c.maxAge with
  | none => false
  | some maxAge => decide (maxAge < now - t)

/-- Lookup: a stale entry is dropped and reported as a miss; a fresh
entry moves to the most-recently-used position, with its age refreshed
when updateAgeOnGet is configured. -/
def LRUCache.get {κ ν : Type} [DecidableEq κ] (c : LRUCache κ ν)
    (now : Nat) (k : κ) : Option ν × LRUCache κ ν :=
  match c.entries.find? (fun e => e.1 = k) with
  | none => (none, c)
  | some (_, v, t) =>
    if c.isStale now t then
      (none, { c with entries := c.entries.filter (fun e => !decide (e.1 = k)) })
    else
      (some v,
        { c with entries :=
            (k, v, if c.updateAgeOnGet then now else t) ::
              c.entries.filter (fun e => !decide (e.1 = k)) })

/-- Insertion: the key is (re)stored at the most-recently-used position
with the current time; beyond capacity the least-recently-used entry is
dropped. -/
def LRUCache.set {κ ν : Type} [DecidableEq κ] (c : LRUCache κ ν)
    (now : Nat) (k : κ) (v : ν) : LRUCache κ ν :=
  { c with entries :=
      ((k, v, now) :: c.entries.filter (fun e => !decide (e.1 = k))).take c.max }

/-- The prune sweep drops every stale entry. -/
def LRUCache.prune {κ ν : Type} (c : LRUCache κ ν) (now : Nat) : LRUCache κ ν :=
  { c with entries := c.entries.filter (fun e => !c.isStale now e.2.2) }

/-- Keys currently stored, most-recently-used first. -/
def LRUCache.keys {κ ν : Type} (c : LRUCache κ ν) : List κ :=
  c.entries.map (·.1)

/-- An empty cache with the given configuration. -/
def LRUCache.empty (κ ν : Type) (max : Nat) (maxAge : Option Nat)
    (updateAgeOnGet : Bool) : LRUCache κ ν :=
  { max := max, maxAge := maxAge, updateAgeOnGet := updateAgeOnGet, entries := [] }

/-- The max option passed to the compilerCache constructor:
compilerCacheSize or 250 when the former is absent or zero (JS
truthiness of the or-default). -/
def compilerCacheMax (compilerCacheSize : Option Nat) : Nat :=
  match compilerCacheSize with
  | some n => if n = 0 then 250 else n
  | none => 250

/-- The compilerCache created by the constructor from the configured
options. -/
def mkCompilerCache (ν : Type) (compilerCacheSize : Option Nat)
    (maxCompilerCacheKeepAlive : Option Nat)
    (updateCompilerCacheKeepAlive : Bool) : LRUCache String ν :=
  LRUCache.empty String ν (compilerCacheMax compilerCacheSize)
    maxCompilerCacheKeepAlive updateCompilerCacheKeepAlive

/-- The period of the maxCompilerCacheKeep prune interval installed by
the constructor: installed only when maxCompilerCacheKeepAlive is
configured (truthy), with the keep-alive value itself as the period. -/
def maxCompilerCacheKeepPeriod (maxCompilerCacheKeepAlive : Option Nat) :
    Option Nat :=
  match maxCompilerCacheKeepAlive with
  | some t => if t = 0 then none else some t
  | none => none

lemma set_keys_of_full {κ ν : Type} [DecidableEq κ] (c : LRUCache κ ν)
    (now : Nat) (k : κ) (v : ν)
    (hlen : c.entries.length = c.max) (hmax : 0 < c.max) (hk : k ∉ c.keys) :
    (c.set now k v).keys = k :: c.keys.dropLast := by
  have hfilt : c.entries.filter (fun e => !decide (e.1 = k)) = c.entries := by
    refine List.filter_eq_self.mpr (fun a ha => ?_)
    have hne : a.1 ≠ k := fun h => hk (h ▸ List.mem_map_of_mem (·.1) ha)
    simp [hne]
  obtain ⟨m, hm⟩ : ∃ m, c.max = m + 1 :=
    ⟨c.max - 1, (Nat.succ_pred_eq_of_pos hmax).symm⟩
  have hkeys : c.keys.length = m + 1 := by
    simp [LRUCache.keys, hlen, hm]
  simp only [LRUCache.set, LRUCache.keys, hfilt, hm, List.take_succ_cons,
    List.map_cons, List.map_take]
  rw [List.dropLast_eq_take]
  simp [hlen, hm]

lemma get_hit_head {κ ν : Type} [DecidableEq κ] (c c' : LRUCache κ ν)
    (now : Nat) (k : κ) (v : ν) (hget : c.get now k = (some v, c')) :
    c'.keys.head? = some k
    ∧ (c.updateAgeOnGet = true → c'.entries.head? = some (k, v, now)) := by
  cases hfind : c.entries.find? (fun e => decide (e.1 = k)) with
  | none =>
    rw [LRUCache.get] at hget
    simp only [hfind] at hget
    cases hget
  | some a =>
    obtain ⟨k', v', t'⟩ := a
    have hk' : k' = k := by
      have := List.find?_some hfind
      simpa using this
    rw [LRUCache.get] at hget
    simp only [hfind] at hget
    by_cases hst : c.isStale now t'
    · rw [if_pos hst] at hget
      cases hget
    · rw [if_neg hst] at hget
      injection hget with hv hc
      injection hv with hv'
      subst hv' hk'
      constructor
      · rw [← hc]
        simp [LRUCache.keys]
      · intro hup
        rw [← hc]
        simp [hup]

/-- C6: capacity and LRU eviction of the compiler cache. The constructor
option wiring gives max entry count compilerCacheSize with default 250
(also when the configured size is 0, a falsy value); inserting a new key
into a full cache evicts exactly the least-recently-used entry, keeping
the rest; a successful get moves the entry to the most-recently-used
position, and with keep-alive-on-read configured it also refreshes the
entry age to the access time; and in the concrete scenario max=2, insert
A, B, C with no further access to A, the A entry is evicted while B and C
remain retrievable. -/
theorem C6_compiler_cache_capacity {κ ν : Type} [DecidableEq κ]
    (sz : Option Nat) (n : Nat) (c c2 c2' : LRUCache κ ν) (now now2 : Nat)
    (k k2 : κ) (v v2 : ν)
    (hn : n ≠ 0)
    (hlen : c.entries.length = c.max) (hmax : 0 < c.max) (hk : k ∉ c.keys)
    (hget : c2.get now2 k2 = (some v2, c2')) :
    compilerCacheMax none = 250
    ∧ compilerCacheMax (some 0) = 250
    ∧ compilerCacheMax (some n) = n
    ∧ (∀ (μ : Type) ka up, (mkCompilerCache μ sz ka up).max = compilerCacheMax sz)
    ∧ (c.set now k v).keys = k :: c.keys.dropLast
    ∧ c2'.keys.head? = some k2
    ∧ (c2.updateAgeOnGet = true → c2'.entries.head? = some (k2, v2, now2))
    ∧ (((((LRUCache.empty String Nat 2 none false).set 0 "A" 1).set 1 "B" 2).set 2
          "C" 3).get 3 "A").1 = none
    ∧ (((((LRUCache.empty String Nat 2 none false).set 0 "A" 1).set 1 "B" 2).set 2
          "C" 3).get 3 "B").1 = some 2
    ∧ (((((LRUCache.empty String Nat 2 none false).set 0 "A" 1).set 1 "B" 2).set 2
          "C" 3).get 3 "C").1 = some 3 := by
  have hhit := get_hit_head c2 c2' now2 k2 v2 hget
  refine ⟨rfl, rfl, by simp [compilerCacheMax, hn], fun μ ka up => rfl,
    set_keys_of_full c now k v hlen hmax hk, hhit.1, hhit.2, ?_, ?_, ?_⟩ <;> rfl

/-- C6 witness: the capacity facts at size 3, a full two-entry cache
receiving key C, and a cache hit on key X with keep-alive-on-read
enabled. -/
theorem C6_witness :
    compilerCacheMax none = 250
    ∧ compilerCacheMax (some 0) = 250
    ∧ compilerCacheMax (some 3) = 3
    ∧ (∀ (μ : Type) ka up,
        (mkCompilerCache μ (some 3) ka up).max = compilerCacheMax (some 3))
    ∧ ((⟨2, none, true, [("B", 2, 1), ("A", 1, 0)]⟩ :
          LRUCache String Nat).set 2 "C" 3).keys
        = "C" :: (⟨2, none, true, [("B", 2, 1), ("A", 1, 0)]⟩ :
          LRUCache String Nat).keys.dropLast
    ∧ (⟨1, none, true, [("X", 5, 4)]⟩ : LRUCache String Nat).keys.head? = some "X"
    ∧ ((⟨1, none, true, [("X", 5, 0)]⟩ : LRUCache String Nat).updateAgeOnGet = true →
        (⟨1, none, true, [("X", 5, 4)]⟩ : LRUCache String Nat).entries.head?
          = some ("X", 5, 4))
    ∧ (((((LRUCache.empty String Nat 2 none false).set 0 "A" 1).set 1 "B" 2).set 2
          "C" 3).get 3 "A").1 = none
    ∧ (((((LRUCache.empty String Nat 2 none false).set 0 "A" 1).set 1 "B" 2).set 2
          "C" 3).get 3 "B").1 = some 2
    ∧ (((((LRUCache.empty String Nat 2 none false).set 0 "A" 1).set 1 "B" 2).set 2
          "C" 3).get 3 "C").1 = some 3 :=
  C6_compiler_cache_capacity (some 3) 3
    ⟨2, none, true, [("B", 2, 1), ("A", 1, 0)]⟩
    ⟨1, none, true, [("X", 5, 0)]⟩
    ⟨1, none, true, [("X", 5, 4)]⟩ 2 4 "C" "X" 3 5
    (by decide) rfl (by decide) (by decide) rfl

lemma compilerCacheMax_pos (sz : Option Nat) : 0 < compilerCacheMax sz := by
  cases sz with
  | none => decide
  | some n =>
    by_cases h : n = 0 <;> simp [compilerCacheMax, h]
    omega

lemma mkCompilerCache_set_entries {ν : Type} (sz ka : Option Nat) (up : Bool)
    (k : String) (v : ν) (t : Nat) :
    ((mkCompilerCache ν sz ka up).set t k v).entries = [(k, v, t)] := by
  obtain ⟨m, hm⟩ : ∃ m, compilerCacheMax sz = m + 1 :=
    ⟨_, (Nat.succ_pred_eq_of_pos (compilerCacheMax_pos sz)).symm⟩
  simp [mkCompilerCache, LRUCache.empty, LRUCache.set, hm]

lemma get_single_stale {ν : Type} (c : LRUCache String ν) (now T : Nat)
    (k : String) (v : ν) (hage : c.maxAge = some T) (hT : T < now)
    (hent : c.entries = [(k, v, 0)] ∨ c.entries = []) :
    (c.get now k).1 = none := by
  have hst : c.isStale now 0 = true := by
    simp only [LRUCache.isStale, hage, decide_eq_true_eq]
    omega
  rcases hent with h | h
  · rw [LRUCache.get, h]
    simp [hst]
  · rw [LRUCache.get, h]
    rfl

lemma get_hit_fresh {ν : Type} (c : LRUCache String ν) (now : Nat) (k : String)
    (T : Nat) (hage : c.maxAge = some T) (hsome : ((c.get now k).1).isSome) :
    ∃ e ∈ c.entries, e.1 = k ∧ now - e.2.2 ≤ T := by
  cases hfind : c.entries.find? (fun e => decide (e.1 = k)) with
  | none =>
    rw [LRUCache.get] at hsome
    simp [hfind] at hsome
  | some a =>
    obtain ⟨k', v', t'⟩ := a
    have hk' : k' = k := by
      have := List.find?_some hfind
      simpa using this
    have hmem := List.mem_of_find?_eq_some hfind
    rw [LRUCache.get] at hsome
    simp only [hfind] at hsome
    by_cases hst : c.isStale now t'
    · rw [if_pos hst] at hsome
      simp at hsome
    · refine ⟨(k', v', t'), hmem, hk', ?_⟩
      simp only [LRUCache.isStale, hage, decide_eq_true_eq] at hst
      show now - t' ≤ T
      omega

/-- C7: expiry of the compiler cache. With a configured keep-alive
max-age T, an entry inserted at time 0 into the compilerCache is a miss
on get at every time greater than T, both before any sweep and after a
prune sweep run at an arbitrary time; the prune sweep at such a time
removes the expired entry; in general a lookup only ever returns an
entry whose age is at most T; and the constructor installs the
background prune interval exactly when a keep-alive is configured
(truthy), with the keep-alive value as its fixed period. -/
theorem C7_compiler_cache_expiry {ν : Type} (sz : Option Nat) (up : Bool)
    (T now : Nat) (k : String) (v : ν) (hT : T < now) :
    ((((mkCompilerCache ν sz (some T) up).set 0 k v).get now k).1 = none)
    ∧ (∀ nowS : Nat,
        (((((mkCompilerCache ν sz (some T) up).set 0 k v).prune nowS).get now
            k).1 = none))
    ∧ ((((mkCompilerCache ν sz (some T) up).set 0 k v).prune now).keys = [])
    ∧ (∀ (c : LRUCache String ν) (now2 : Nat) (k2 : String),
        c.maxAge = some T → ((c.get now2 k2).1).isSome →
        ∃ e ∈ c.entries, e.1 = k2 ∧ now2 - e.2.2 ≤ T)
    ∧ maxCompilerCacheKeepPeriod none = none
    ∧ (T ≠ 0 → maxCompilerCacheKeepPeriod (some T) = some T) := by
  have hent := mkCompilerCache_set_entries (ν := ν) sz (some T) up k v 0
  have hstale : ((mkCompilerCache ν sz (some T) up).set 0 k v).isStale now 0
      = true := by
    simp only [LRUCache.isStale, LRUCache.set, mkCompilerCache, LRUCache.empty,
      decide_eq_true_eq]
    omega
  refine ⟨?_, ?_, ?_, fun c now2 k2 => get_hit_fresh c now2 k2 T, rfl, ?_⟩
  · exact get_single_stale _ now T k v rfl hT (Or.inl hent)
  · intro nowS
    refine get_single_stale _ now T k v rfl hT ?_
    rw [LRUCache.prune, hent]
    cases hb : ((mkCompilerCache ν sz (some T) up).set 0 k v).isStale nowS 0
    · left
      simp [hb]
    · right
      simp [hb]
  · rw [LRUCache.prune, hent]
    simp [LRUCache.keys, hstale]
  · intro h0
    simp [maxCompilerCacheKeepPeriod, h0]

/-- C7 witness: expiry facts with max-age 10, insertion at time 0 and a
query at time 11. -/
theorem C7_witness :
    ((((mkCompilerCache Nat none (some 10) true).set 0 "acme" 1).get 11
        "acme").1 = none)
    ∧ (∀ nowS : Nat,
        (((((mkCompilerCache Nat none (some 10) true).set 0 "acme" 1).prune
            nowS).get 11 "acme").1 = none))
    ∧ ((((mkCompilerCache Nat none (some 10) true).set 0 "acme" 1).prune
        11).keys = [])
    ∧ (∀ (c : LRUCache String Nat) (now2 : Nat) (k2 : String),
        c.maxAge = some 10 → ((c.get now2 k2).1).isSome →
        ∃ e ∈ c.entries, e.1 = k2 ∧ now2 - e.2.2 ≤ 10)
    ∧ maxCompilerCacheKeepPeriod none = none
    ∧ ((10 : Nat) ≠ 0 → maxCompilerCacheKeepPeriod (some 10) = some 10) :=
  C7_compiler_cache_expiry none true 10 11 "acme" 1 (by decide)

/- ======================================================================
   Coordinator lookups (getCompilerApi / getOrchestratorApi)
   ====================================================================== -/

/-- A CompilerApi object: id models its reference identity, schemaVersion
the mutable field that getCompilerApi reassigns on every call. -/
structure CompilerApi where
  id : Nat
  schemaVersion : Option Nat
deriving DecidableEq

/-- In-place mutation of the object a cache entry references: every entry
stored under k has its value replaced by f of it, leaving recency and age
untouched. -/
def LRUCache.updateValue {κ ν : Type} [DecidableEq κ] (c : LRUCache κ ν)
    (k : κ) (f : ν → ν) : LRUCache κ ν :=
  { c with entries :=
      c.entries.map (fun e => if e.1 = k then (e.1, f e.2.1, e.2.2) else e) }

/-- State owned by getCompilerApi: the compilerCache and the allocator of
fresh CompilerApi object identities. -/
structure CompilerCacheState where
  compilerCache : LRUCache String CompilerApi
  nextApiId : Nat

/-- Shallow embedding of getCompilerApi: resolve the appId from the
context, look the CompilerApi up in compilerCache, create and store a new
one only on a miss, then assign schemaVersion on the returned (and, by
reference, stored) object. The createCompilerApi construction is
abstracted to allocating a fresh object identity; the optional
schemaVersion closure of the options is schemaVersionCfg. -/
def getCompilerApi {Ctx : Type} (contextToAppId : Ctx → String)
    (schemaVersionCfg : Option (Ctx → Nat))
    (s : CompilerCacheState) (now : Nat) (ctx : Ctx) :
    CompilerApi × CompilerCacheState :=
  let appId := contextToAppId ctx
  let r := s.compilerCache.get now appId
  let currentSchemaVersion := schemaVersionCfg.map (fun f => f ctx)
  match r.1 with
  | some api =>
    let api2 := { api with schemaVersion := currentSchemaVersion }
    (api2, { s with compilerCache := r.2.updateValue appId (fun _ => api2) })
  | none =>
    let api : CompilerApi := { id := s.nextApiId, schemaVersion := none }
    let cache1 := r.2.set now appId api
    let api2 := { api with schemaVersion := currentSchemaVersion }
    (api2, { compilerCache := cache1.updateValue appId (fun _ => api2),
             nextApiId := s.nextApiId + 1 })

/-- Modelled from the spec: OrchestratorStorage source is not under src;
per the OrchestratorRegistry contract it is a key-value map supporting
has, get and set, here an association list keyed by orchestrator id,
holding orchestrator instances identified by their reference id. -/
structure OrchestratorRegistryState where
  storage : List (String × Nat)
  nextOrchestratorId : Nat
deriving DecidableEq

/-- Shallow embedding of getOrchestratorApi: resolve the orchestrator id
from the context; when the storage has the id, return the stored
instance; otherwise create an orchestrator instance (abstracted to a
fresh identity), store it and return it. -/
def getOrchestratorApi {Ctx : Type} (contextToOrchestratorId : Ctx → String)
    (s : OrchestratorRegistryState) (ctx : Ctx) :
    Nat × OrchestratorRegistryState :=
  let oid := contextToOrchestratorId ctx
  match s.storage.find? (fun e => e.1 = oid) with
  | some e => (e.2, s)
  | none =>
    (s.nextOrchestratorId,
      { storage := (oid, s.nextOrchestratorId) :: s.storage,
        nextOrchestratorId := s.nextOrchestratorId + 1 })

lemma updateValue_key_val {κ ν : Type} [DecidableEq κ] (c : LRUCache κ ν)
    (k : κ) (a : ν) :
    ∀ e ∈ (c.updateValue k (fun _ => a)).entries, e.1 = k → e.2.1 = a := by
  intro e he hek
  simp only [LRUCache.updateValue, List.mem_map] at he
  obtain ⟨e0, _, rfl⟩ := he
  by_cases h : e0.1 = k
  · simp [h]
  · simp only [if_neg h] at hek ⊢
    exact absurd hek h

lemma get_hit_mem {κ ν : Type} [DecidableEq κ] (c c' : LRUCache κ ν)
    (now : Nat) (k : κ) (v : ν) (hget : c.get now k = (some v, c')) :
    ∃ t, (k, v, t) ∈ c.entries := by
  cases hfind : c.entries.find? (fun e => decide (e.1 = k)) with
  | none =>
    rw [LRUCache.get] at hget
    simp only [hfind] at hget
    cases hget
  | some a =>
    obtain ⟨k', v', t'⟩ := a
    have hk' : k' = k := by
      have := List.find?_some hfind
      simpa using this
    have hmem := List.mem_of_find?_eq_some hfind
    rw [LRUCache.get] at hget
    simp only [hfind] at hget
    by_cases hst : c.isStale now t'
    · rw [if_pos hst] at hget
      cases hget
    · rw [if_neg hst] at hget
      injection hget with hv _
      injection hv with hv'
      exact ⟨t', by rw [← hk', ← hv']; exact hmem⟩

lemma getCompilerApi_stored {Ctx : Type} (cAppId : Ctx → String)
    (svc : Option (Ctx → Nat)) (s : CompilerCacheState) (now : Nat) (ctx : Ctx) :
    ∀ e ∈ (getCompilerApi cAppId svc s now ctx).2.compilerCache.entries,
      e.1 = cAppId ctx → e.2.1 = (getCompilerApi cAppId svc s now ctx).1 := by
  unfold getCompilerApi
  cases hr : (s.compilerCache.get now (cAppId ctx)).1 with
  | some api =>
    simp only [hr]
    exact updateValue_key_val _ _ _
  | none =>
    simp only [hr]
    exact updateValue_key_val _ _ _

/-- C8: same tenant key, same instance. If a first getCompilerApi call
returns object api1, then a second call whose context maps to the same
appId and whose lookup still hits (no eviction or expiry in between)
returns the same CompilerApi object and allocates no new one; and a
second getOrchestratorApi call whose context maps to the same
orchestrator id returns the instance stored by the first call and leaves
the registry unchanged: each creates and stores an instance only on a
lookup miss. -/
theorem C8_same_key_same_instance {Ctx : Type}
    (cAppId cOrch : Ctx → String) (svc : Option (Ctx → Nat))
    (s : CompilerCacheState) (r : OrchestratorRegistryState)
    (now1 now2 : Nat) (ctx1 ctx2 : Ctx)
    (api1 : CompilerApi) (s1 : CompilerCacheState)
    (happ : cAppId ctx1 = cAppId ctx2)
    (hoid : cOrch ctx1 = cOrch ctx2)
    (hcall1 : getCompilerApi cAppId svc s now1 ctx1 = (api1, s1))
    (hhit : ((s1.compilerCache.get now2 (cAppId ctx2)).1).isSome) :
    ((getCompilerApi cAppId svc s1 now2 ctx2).1.id = api1.id)
    ∧ ((getCompilerApi cAppId svc s1 now2 ctx2).2.nextApiId = s1.nextApiId)
    ∧ (getOrchestratorApi cOrch (getOrchestratorApi cOrch r ctx1).2 ctx2
        = ((getOrchestratorApi cOrch r ctx1).1,
            (getOrchestratorApi cOrch r ctx1).2)) := by
  have hstored : ∀ e ∈ s1.compilerCache.entries,
      e.1 = cAppId ctx1 → e.2.1 = api1 := by
    have h := getCompilerApi_stored cAppId svc s now1 ctx1
    rw [hcall1] at h
    simpa using h
  refine ⟨?_, ?_, ?_⟩
  · rcases hget2 : s1.compilerCache.get now2 (cAppId ctx2) with ⟨o, c''⟩
    cases o with
    | none =>
      rw [hget2] at hhit
      simp at hhit
    | some v =>
      obtain ⟨t, hmem⟩ := get_hit_mem _ _ _ _ _ hget2
      have hv : v = api1 := hstored (cAppId ctx2, v, t) hmem happ.symm
      unfold getCompilerApi
      simp only [hget2, hv]
  · rcases hget2 : s1.compilerCache.get now2 (cAppId ctx2) with ⟨o, c''⟩
    cases o with
    | none =>
      rw [hget2] at hhit
      simp at hhit
    | some v =>
      unfold getCompilerApi
      simp only [hget2]
  · cases hf : r.storage.find? (fun e => decide (e.1 = cOrch ctx1)) with
    | some e =>
      unfold getOrchestratorApi
      simp only [← hoid, hf]
    | none =>
      unfold getOrchestratorApi
      simp only [← hoid, hf, List.find?]
      simp

/-- C8 witness: with tenant key t, a second lookup after a first call
that created and stored the instance returns the same object identity
for the compiler api, allocates nothing new, and returns the stored
orchestrator instance with the registry unchanged. -/
theorem C8_witness :
    ((getCompilerApi (fun _ => "t" : Nat → String) none
        ⟨⟨2, none, false, [("t", ⟨0, none⟩, 0)]⟩, 1⟩ 1 2).1.id
      = (⟨0, none⟩ : CompilerApi).id)
    ∧ ((getCompilerApi (fun _ => "t" : Nat → String) none
        ⟨⟨2, none, false, [("t", ⟨0, none⟩, 0)]⟩, 1⟩ 1 2).2.nextApiId = 1)
    ∧ (getOrchestratorApi (fun _ => "t" : Nat → String)
        (getOrchestratorApi (fun _ => "t" : Nat → String) ⟨[], 0⟩ 1).2 2
        = ((getOrchestratorApi (fun _ => "t" : Nat → String) ⟨[], 0⟩ 1).1,
            (getOrchestratorApi (fun _ => "t" : Nat → String) ⟨[], 0⟩ 1).2)) :=
  C8_same_key_same_instance (fun _ => "t") (fun _ => "t") none
    ⟨LRUCache.empty String CompilerApi 2 none false, 0⟩ ⟨[], 0⟩ 0 1 1 2
    ⟨0, none⟩ ⟨⟨2, none, false, [("t", ⟨0, none⟩, 0)]⟩, 1⟩ rfl rfl rfl rfl

/- ======================================================================
   Scheduled refresh timer (startScheduledRefreshTimer)
   ====================================================================== -/

/-- Event name logged when an interval overlap is detected. -/
def refreshSchedulerIntervalErrorEvent : String :=
  "Refresh Scheduler Interval Error"

/-- Event name logged when an overrun interval invocation completes. -/
def refreshSchedulerLongExecutionEvent : String :=
  "Refresh Scheduler Long Execution"

/-- The onDuplicatedExecution handler passed by startScheduledRefreshTimer
to the cancelable interval: the (event, message) pair given to the
logger when the previous invocation has not finished. -/
def onDuplicatedExecution (scheduledRefreshTimer intervalId : Nat) :
    String × String :=
  (refreshSchedulerIntervalErrorEvent,
    "Previous interval #" ++ toString intervalId ++ " was not finished with " ++
      toString scheduledRefreshTimer ++ " interval")

/-- The onDuplicatedStateResolved handler passed by
startScheduledRefreshTimer: the (event, message) pair given to the logger
when the overrun invocation completes, carrying the formatted elapsed
duration. -/
def onDuplicatedStateResolved (formatDuration : Nat → String)
    (intervalId elapsed : Nat) : String × String :=
  (refreshSchedulerLongExecutionEvent,
    "Interval #" ++ toString intervalId ++ " finished after " ++
      formatDuration elapsed)

/-- Modelled from the spec: createCancelableInterval lives in the shared
package, not under src. State of the interval primitive: the
incrementing interval id, whether an invocation is in flight, when it
started, and whether an overlap has been detected for it. -/
structure CancelableIntervalState where
  intervalId : Nat
  running : Bool
  startedAt : Nat
  duplicated : Bool
deriving DecidableEq

/-- A scheduling event: a due tick of the fixed period, or completion of
the in-flight invocation. -/
inductive IntervalEvent where
  | tick (now : Nat)
  | complete (now : Nat)
deriving DecidableEq

/-- Modelled from the spec: on a due tick with the previous invocation
still running, no concurrent invocation starts; the incrementing interval
id advances and the duplicated-execution diagnostic fires with it. On a
due tick while idle the run starts. On completion after a detected
overlap, the duplicated-state-resolved diagnostic fires with the elapsed
duration, closing the episode. The diagnostics are exactly the handlers
wired by startScheduledRefreshTimer. -/
def cancelableIntervalStep (interval : Nat) (formatDuration : Nat → String)
    (s : CancelableIntervalState) :
    IntervalEvent → CancelableIntervalState × List (String × String)
  | .tick now =>
    if s.running then
      ({ s with intervalId := s.intervalId + 1, duplicated := true },
        [onDuplicatedExecution interval (s.intervalId + 1)])
    else
      ({ s with
          intervalId := s.intervalId + 1
          running := true
          startedAt := now }, [])
  | .complete now =>
    if s.duplicated then
      ({ s with running := false, duplicated := false },
        [onDuplicatedStateResolved formatDuration s.intervalId
            (now - s.startedAt)])
    else
      ({ s with running := false }, [])

/-- C9: the refresh scheduler interval logs the event named Refresh
Scheduler Interval Error when an overlap is detected, with a message
carrying the incremented interval id and the configured interval, and
logs the event named Refresh Scheduler Long Execution when the overrun
invocation completes, with a message carrying the interval id and the
formatted elapsed duration; the interval id increments on every tick and
these exact event names are the wired constants. -/
theorem C9_scheduler_event_names (interval now : Nat) (fd : Nat → String)
    (s : CancelableIntervalState)
    (hrun : s.running = true) (hdup : s.duplicated = true) :
    ((cancelableIntervalStep interval fd s (.tick now)).2
        = [(refreshSchedulerIntervalErrorEvent,
            "Previous interval #" ++ toString (s.intervalId + 1) ++
              " was not finished with " ++ toString interval ++ " interval")])
    ∧ ((cancelableIntervalStep interval fd s (.tick now)).1.intervalId
        = s.intervalId + 1)
    ∧ ((cancelableIntervalStep interval fd s (.complete now)).2
        = [(refreshSchedulerLongExecutionEvent,
            "Interval #" ++ toString s.intervalId ++ " finished after " ++
              fd (now - s.startedAt))])
    ∧ refreshSchedulerIntervalErrorEvent = "Refresh Scheduler Interval Error"
    ∧ refreshSchedulerLongExecutionEvent = "Refresh Scheduler Long Execution" := by
  refine ⟨?_, ?_, ?_, rfl, rfl⟩
  · simp [cancelableIntervalStep, hrun, onDuplicatedExecution]
  · simp [cancelableIntervalStep, hrun]
  · simp [cancelableIntervalStep, hdup, onDuplicatedStateResolved]

/-- C9 witness: the diagnostics at a concrete overlapping state with
interval id 3, period 30000 and an invocation started at time 5
completing at time 9. -/
theorem C9_witness :
    ((cancelableIntervalStep 30000 (fun n => toString n ++ "ms")
          ⟨3, true, 5, true⟩ (.tick 8)).2
        = [(refreshSchedulerIntervalErrorEvent,
            "Previous interval #" ++ toString (3 + 1) ++
              " was not finished with " ++ toString 30000 ++ " interval")])
    ∧ ((cancelableIntervalStep 30000 (fun n => toString n ++ "ms")
          ⟨3, true, 5, true⟩ (.tick 8)).1.intervalId = 3 + 1)
    ∧ ((cancelableIntervalStep 30000 (fun n => toString n ++ "ms")
          ⟨3, true, 5, true⟩ (.complete 8)).2
        = [(refreshSchedulerLongExecutionEvent,
            "Interval #" ++ toString 3 ++ " finished after " ++
              (fun n => toString n ++ "ms") (8 - 5))])
    ∧ refreshSchedulerIntervalErrorEvent = "Refresh Scheduler Interval Error"
    ∧ refreshSchedulerLongExecutionEvent = "Refresh Scheduler Long Execution" :=
  C9_scheduler_event_names 30000 8 (fun n => toString n ++ "ms")
    ⟨3, true, 5, true⟩ rfl rfl

/-- The configured scheduledRefreshTimer option, a boolean or a number
(of seconds). -/
inductive RefreshTimerConfig where
  | bool (b : Bool)
  | num (n : Nat)
deriving DecidableEq

/-- Shallow embedding of detectScheduledRefreshTimer: a truthy number is
scaled to milliseconds; any other truthy value selects the default 30000
ms; a falsy value (false, or the number 0) disables the timer. -/
def detectScheduledRefreshTimer : RefreshTimerConfig → Option Nat
  | .num n => if n = 0 then none else some (n * 1000)
  | .bool b => if b then some 30000 else none

/-- The part of the coordinator state read and written by
startScheduledRefreshTimer: the dbType option captured at construction,
the CUBEJS_DB_TYPE environment variable as read at call time, the
configured timer option, and the held interval (its period), if any. -/
structure CoreSchedulerState where
  optionsDbType : Option String
  envDbType : Option String
  scheduledRefreshTimer : RefreshTimerConfig
  scheduledRefreshTimerInterval : Option Nat
deriving DecidableEq

/-- Shallow embedding of isReadyForQueryProcessing: the dbType option,
defaulted from the environment variable, is defined. -/
def isReadyForQueryProcessing (s : CoreSchedulerState) : Bool :=
  (s.optionsDbType.orElse (fun _ => s.envDbType)).isSome

/-- Reason returned when the instance is not ready. -/
def schedulerNotReadyMsg : String :=
  "Instance is not ready for query processing, refresh scheduler is disabled"

/-- Reason returned when no refresh timer is configured. -/
def schedulerNoTimerMsg : String :=
  "Instance configured without scheduler refresh timer, refresh scheduler is disabled"

/-- Shallow embedding of startScheduledRefreshTimer: refuse when not
ready for query processing; then report success without creating anything
when an interval is already held; then create the interval when a timer
is configured, else refuse. Returns the [Bool, String or null] pair and
the successor state. -/
def startScheduledRefreshTimer (s : CoreSchedulerState) :
    (Bool × Option String) × CoreSchedulerState :=
  if !isReadyForQueryProcessing s then
    ((false, some schedulerNotReadyMsg), s)
  else if s.scheduledRefreshTimerInterval.isSome then
    ((true, none), s)
  else
    match detectScheduledRefreshTimer s.scheduledRefreshTimer with
    | some t =>
      ((true, none), { s with scheduledRefreshTimerInterval := some t })
    | none => ((false, some schedulerNoTimerMsg), s)

/-- A state that is not ready for query processing while an interval is
already held: reachable when CUBEJS_DB_TYPE was set when the timer
started and is unset at the later call. -/
def notReadyWithInterval : CoreSchedulerState :=
  { optionsDbType := none
    envDbType := none
    scheduledRefreshTimer := .bool true
    scheduledRefreshTimerInterval := some 30000 }

/-- C10 counterexample: on an instance that already holds a refresh
interval but is not ready for query processing, startScheduledRefreshTimer
does not return [true, null]: the readiness check takes precedence over
the already-started check. -/
theorem C10_not_ready_overrides_started :
    (startScheduledRefreshTimer notReadyWithInterval).1 ≠ (true, none) := by
  decide

/-- C10 (amended): startScheduledRefreshTimer first checks readiness:
when not ready it returns [false, reason] and changes nothing, even when
an interval is already held. When ready and an interval already exists it
returns [true, null] without creating a second one; when ready with no
interval it creates one and returns [true, null] if a timer is
configured, and returns [false, reason] creating none otherwise. In every
case a held interval is never replaced, so at most one interval exists
per instance. -/
theorem C10_start_timer_cases (s : CoreSchedulerState) :
    (isReadyForQueryProcessing s = false →
      startScheduledRefreshTimer s = ((false, some schedulerNotReadyMsg), s))
    ∧ (isReadyForQueryProcessing s = true →
        s.scheduledRefreshTimerInterval.isSome →
        startScheduledRefreshTimer s = ((true, none), s))
    ∧ (isReadyForQueryProcessing s = true →
        s.scheduledRefreshTimerInterval = none →
        ∀ t, detectScheduledRefreshTimer s.scheduledRefreshTimer = some t →
        startScheduledRefreshTimer s
          = ((true, none), { s with scheduledRefreshTimerInterval := some t }))
    ∧ (isReadyForQueryProcessing s = true →
        s.scheduledRefreshTimerInterval = none →
        detectScheduledRefreshTimer s.scheduledRefreshTimer = none →
        startScheduledRefreshTimer s = ((false, some schedulerNoTimerMsg), s))
    ∧ (s.scheduledRefreshTimerInterval.isSome →
        (startScheduledRefreshTimer s).2 = s) := by
  refine ⟨?_, ?_, ?_, ?_, ?_⟩
  · intro h
    simp [startScheduledRefreshTimer, h]
  · intro h hi
    simp [startScheduledRefreshTimer, h, hi]
  · intro h hi t ht
    simp [startScheduledRefreshTimer, h, hi, ht]
  · intro h hi ht
    simp [startScheduledRefreshTimer, h, hi, ht]
  · intro hi
    by_cases h : isReadyForQueryProcessing s
    · simp [startScheduledRefreshTimer, h, hi]
    · simp only [Bool.not_eq_true] at h
      simp [startScheduledRefreshTimer, h]

/-- A ready state already holding an interval. -/
def readyWithInterval : CoreSchedulerState :=
  { optionsDbType := some "postgres"
    envDbType := none
    scheduledRefreshTimer := .bool true
    scheduledRefreshTimerInterval := some 30000 }

/-- A ready state with no interval and a numeric timer configured. -/
def readyNoInterval : CoreSchedulerState :=
  { optionsDbType := some "postgres"
    envDbType := none
    scheduledRefreshTimer := .num 60
    scheduledRefreshTimerInterval := none }

/-- A ready state with no interval and the timer disabled. -/
def readyTimerOff : CoreSchedulerState :=
  { optionsDbType := some "postgres"
    envDbType := none
    scheduledRefreshTimer := .bool false
    scheduledRefreshTimerInterval := none }

/-- C10 witness: the amended cases evaluated at concrete states: not
ready, ready with a held interval (idempotent success, state unchanged),
ready with a numeric timer (interval created at 60000 ms), and ready with
the timer disabled. -/
theorem C10_witness :
    (startScheduledRefreshTimer notReadyWithInterval
      = ((false, some schedulerNotReadyMsg), notReadyWithInterval))
    ∧ (startScheduledRefreshTimer readyWithInterval
      = ((true, none), readyWithInterval))
    ∧ (startScheduledRefreshTimer readyNoInterval
      = ((true, none),
          { readyNoInterval with scheduledRefreshTimerInterval := some 60000 }))
    ∧ (startScheduledRefreshTimer readyTimerOff
      = ((false, some schedulerNoTimerMsg), readyTimerOff))
    ∧ ((startScheduledRefreshTimer readyWithInterval).2 = readyWithInterval) :=
  ⟨(C10_start_timer_cases notReadyWithInterval).1 rfl,
   (C10_start_timer_cases readyWithInterval).2.1 rfl rfl,
   (C10_start_timer_cases readyNoInterval).2.2.1 rfl rfl 60000 rfl,
   (C10_start_timer_cases readyTimerOff).2.2.2.1 rfl rfl rfl,
   (C10_start_timer_cases readyWithInterval).2.2.2.2 rfl⟩
